import Mathlib

/-!
# Verification of the RTcoin wallet backend core

Shallow embedding of `src/walletbackend/WalletBackend.cpp`: the encrypted
container codec, the wallet lifecycle operations, the prepared-transaction
pipeline and the query surface.  External collaborators (CryptoPP's
AES/PBKDF2 primitives, rapidjson serialisation, the SubWallets registry and
the WalletSynchronizer, whose sources are not part of the core) are modelled
as abstract parameters, constrained only where the spec documents their
behaviour.
-/

namespace RTcoin

/-- Raw byte buffers (`std::vector<char>` / `std::string` contents) are
modelled as lists of naturals. -/
abbrev ByteBuf := List Nat

/-- The error kinds of `Error` relevant to this core, from
`errors/Errors.h` as enumerated by the spec's error-handling design.
`otherError` stands for the pass-through validation errors
(malformed addresses/keys/payment IDs, mnemonic decode errors). -/
inductive WalletError where
  | SUCCESS
  | WALLET_FILE_ALREADY_EXISTS
  | INVALID_WALLET_FILENAME
  | FILENAME_NON_EXISTENT
  | NOT_A_WALLET_FILE
  | WALLET_FILE_CORRUPTED
  | WRONG_PASSWORD
  | UNSUPPORTED_WALLET_FILE_FORMAT_VERSION
  | KEYS_NOT_DETERMINISTIC
  | PREPARED_TRANSACTION_NOT_FOUND
  | PREPARED_TRANSACTION_EXPIRED
  | otherError (code : Nat)
  deriving DecidableEq, Repr

/-- The fixed constants of `walletbackend/Constants.h` (not under `src/`):
the two magic identifiers and the supported file format version.  Their
concrete values are irrelevant to the claims, so they are carried as an
abstract record. -/
structure WalletConstants where
  IS_A_WALLET_IDENTIFIER : ByteBuf
  IS_CORRECT_PASSWORD_IDENTIFIER : ByteBuf
  WALLET_FILE_FORMAT_VERSION : Nat

/-- Abstract model of the CryptoPP primitives used by the codec:
PBKDF2 key derivation and AES-128-CBC with PKCS padding.
`decrypt` returns `none` when CryptoPP raises (bad padding / corrupt
ciphertext), which `openWallet` catches. -/
structure CryptoModel where
  deriveKey : ByteBuf → ByteBuf → ByteBuf
  encrypt : ByteBuf → ByteBuf → ByteBuf → ByteBuf
  decrypt : ByteBuf → ByteBuf → ByteBuf → Option ByteBuf

/-- The JSON document written by `unsafeToJSON` and read back by
`fromJSON`: top-level fields `walletFileFormatVersion`, `subWallets`
(serialised registry snapshot, abstract type `SW`) and
`walletSynchronizer` (serialised checkpoint, abstract type `WS`). -/
structure WalletJson (SW WS : Type) where
  walletFileFormatVersion : Nat
  subWallets : SW
  walletSynchronizer : WS
  deriving DecidableEq, Repr

/-- Abstract model of rapidjson serialisation plus the registry's and
synchronizer's toJSON/fromJSON (all outside the core): text form of the
document and its parser.  `parse` returns `none` on a parse error or a
missing/ill-typed top-level field. -/
structure JsonCodec (SW WS : Type) where
  serialize : WalletJson SW WS → ByteBuf
  parse : ByteBuf → Option (WalletJson SW WS)

/-- The logical wallet container: sub-wallet registry snapshot plus
synchronizer checkpoint.  The file-format version is not stored: the code
always writes the supported constant (`unsafeToJSON`) and refuses any
other on load (`fromJSON`). -/
structure WalletContainer (SW WS : Type) where
  subWallets : SW
  walletSynchronizer : WS
  deriving DecidableEq, Repr

variable {SW WS : Type}

/-- Model of `WalletBackend::hasMagicIdentifier` (anonymous namespace): check the
buffer is long enough for the identifier, check the identifier occupies
the front, and strip it; on failure return the caller-chosen error. -/
def hasMagicIdentifier (data identifier : ByteBuf)
    (tooSmallError wrongIdentifierError : WalletError) :
    Except WalletError ByteBuf :=
  if data.length < identifier.length then
    .error tooSmallError
  else if data.take identifier.length ≠ identifier then
    .error wrongIdentifierError
  else
    .ok (data.drop identifier.length)

/-- Model of `WalletBackend::unsafeToJSON`: writes the supported format version
constant and the two component snapshots. -/
def unsafeToJSON (C : WalletConstants) (w : WalletContainer SW WS) :
    WalletJson SW WS :=
  { walletFileFormatVersion := C.WALLET_FILE_FORMAT_VERSION
    subWallets := w.subWallets
    walletSynchronizer := w.walletSynchronizer }

/-- Model of `WalletBackend::fromJSON(j)`: reject a version field that differs from
the supported constant, else rebuild the registry and synchronizer from
their snapshots. -/
def fromJSON (C : WalletConstants) (j : WalletJson SW WS) :
    Except WalletError (WalletContainer SW WS) :=
  if j.walletFileFormatVersion ≠ C.WALLET_FILE_FORMAT_VERSION then
    .error .UNSUPPORTED_WALLET_FILE_FORMAT_VERSION
  else
    .ok { subWallets := j.subWallets, walletSynchronizer := j.walletSynchronizer }

/-- The byte layout produced by `WalletBackend::saveWalletJSONToDisk`
(ignoring the file write itself): prepend the password-verification magic
to the JSON text, PBKDF2-derive the key from password and salt, encrypt
with the salt as IV, and emit magic-prefix, salt, then ciphertext. -/
def encodeWalletFile (C : WalletConstants) (cm : CryptoModel)
    (walletJSON password salt : ByteBuf) : ByteBuf :=
  let walletData := C.IS_CORRECT_PASSWORD_IDENTIFIER ++ walletJSON
  let key := cm.deriveKey password salt
  let encryptedData := cm.encrypt key salt walletData
  C.IS_A_WALLET_IDENTIFIER ++ salt ++ encryptedData

/-- Encoding of a whole container under a password, with the fresh random
salt as an explicit parameter: `unsafeSave` = `saveWalletJSONToDisk` of
`unsafeToJSON`. -/
def encodeContainer (C : WalletConstants) (cm : CryptoModel)
    (jc : JsonCodec SW WS) (w : WalletContainer SW WS)
    (password salt : ByteBuf) : ByteBuf :=
  encodeWalletFile C cm (jc.serialize (unsafeToJSON C w)) password salt

/-- The codec path of `WalletBackend::openWallet`, after the file has been
read into `data`: strip the wallet magic (both failure modes report
`NOT_A_WALLET_FILE`), require 16 bytes of salt, derive the key, decrypt
(any CryptoPP exception reports `WRONG_PASSWORD`), strip the password
magic (too short reports `WALLET_FILE_CORRUPTED`, mismatch
`WRONG_PASSWORD`), parse the JSON (failure reports
`WALLET_FILE_CORRUPTED`) and delegate to `fromJSON`. -/
def decodeWalletFile (C : WalletConstants) (cm : CryptoModel)
    (jc : JsonCodec SW WS) (data password : ByteBuf) :
    Except WalletError (WalletContainer SW WS) :=
  match hasMagicIdentifier data C.IS_A_WALLET_IDENTIFIER
      .NOT_A_WALLET_FILE .NOT_A_WALLET_FILE with
  | .error e => .error e
  | .ok buffer =>
    if buffer.length < 16 then
      .error .WALLET_FILE_CORRUPTED
    else
      let salt := buffer.take 16
      let remaining := buffer.drop 16
      let key := cm.deriveKey password salt
      match cm.decrypt key salt remaining with
      | none => .error .WRONG_PASSWORD
      | some decryptedData =>
        match hasMagicIdentifier decryptedData C.IS_CORRECT_PASSWORD_IDENTIFIER
            .WALLET_FILE_CORRUPTED .WRONG_PASSWORD with
        | .error e => .error e
        | .ok jsonText =>
          match jc.parse jsonText with
          | none => .error .WALLET_FILE_CORRUPTED
          | some walletJson => fromJSON C walletJson

/-- Stripping an identifier that was just prepended succeeds and returns
the rest. -/
theorem hasMagicIdentifier_append (identifier rest : ByteBuf)
    (e1 e2 : WalletError) :
    hasMagicIdentifier (identifier ++ rest) identifier e1 e2 = .ok rest := by
  unfold hasMagicIdentifier
  rw [if_neg, if_neg, List.drop_left]
  · rw [List.take_left]
    simp
  · simp [Nat.not_lt, List.length_append, Nat.le_add_right]

/-- C1: decoding the bytes produced by encoding a container `w` under a
password, with the same password, succeeds and returns a container equal
to `w` (same sub-wallet set and synchronizer checkpoint; the version is
the supported constant on both sides).  The hypotheses record the salt
length produced by `Random::randomBytes(16)` and the inverse properties
of the external primitives: CBC decryption inverts CBC encryption under
the same key and IV, and the JSON parser inverts the JSON writer. -/
theorem decode_encode_roundtrip (C : WalletConstants) (cm : CryptoModel)
    (jc : JsonCodec SW WS) (w : WalletContainer SW WS)
    (password salt : ByteBuf)
    (hsalt : salt.length = 16)
    (hdec : ∀ key iv m, cm.decrypt key iv (cm.encrypt key iv m) = some m)
    (hparse : ∀ d, jc.parse (jc.serialize d) = some d) :
    decodeWalletFile C cm jc (encodeContainer C cm jc w password salt) password
      = .ok w := by
  unfold encodeContainer encodeWalletFile decodeWalletFile
  simp only [List.append_assoc, hasMagicIdentifier_append]
  have hlen : ¬ (salt ++ cm.encrypt (cm.deriveKey password salt) salt
      (C.IS_CORRECT_PASSWORD_IDENTIFIER ++ jc.serialize (unsafeToJSON C w))).length < 16 := by
    simp [hsalt]
  rw [if_neg hlen, List.take_left' hsalt, List.drop_left' hsalt]
  simp only [hdec, hasMagicIdentifier_append, hparse]
  simp [fromJSON, unsafeToJSON]

/-- Concrete instantiation of the external primitives used by witnesses:
identity encryption (which trivially satisfies the CBC inverse law) and a
three-field list serialisation of the JSON document. -/
def trivialCrypto : CryptoModel :=
  { deriveKey := fun password salt => password ++ salt
    encrypt := fun _ _ m => m
    decrypt := fun _ _ c => some c }

/-- Concrete constants record used by witnesses. -/
def sampleConstants : WalletConstants :=
  { IS_A_WALLET_IDENTIFIER := [1, 2]
    IS_CORRECT_PASSWORD_IDENTIFIER := [3, 4]
    WALLET_FILE_FORMAT_VERSION := 5 }

/-- Concrete JSON codec used by witnesses: the document as a three-element
list. -/
def listJsonCodec : JsonCodec Nat Nat :=
  { serialize := fun d =>
      [d.walletFileFormatVersion, d.subWallets, d.walletSynchronizer]
    parse := fun l =>
      match l with
      | [v, s, w] => some ⟨v, s, w⟩
      | _ => none }

/-- Witness for C1: the round-trip theorem applied at a concrete
container, password and 16-byte salt. -/
theorem decode_encode_roundtrip_witness :
    decodeWalletFile sampleConstants trivialCrypto listJsonCodec
      (encodeContainer sampleConstants trivialCrypto listJsonCodec
        ⟨7, 9⟩ [11] (List.replicate 16 0)) [11] = .ok ⟨7, 9⟩ :=
  decode_encode_roundtrip sampleConstants trivialCrypto listJsonCodec ⟨7, 9⟩ [11]
    (List.replicate 16 0) (by simp) (fun _ _ _ => rfl) (fun _ => rfl)

/-- Boolean prefix test characterised by length and `take`: the form the
source's `std::equal` check uses. -/
theorem isPrefixOf_eq_true_iff (identifier data : ByteBuf) :
    identifier.isPrefixOf data = true ↔
      identifier.length ≤ data.length ∧ data.take identifier.length = identifier := by
  induction identifier generalizing data with
  | nil => simp [List.isPrefixOf]
  | cons a l ih =>
    cases data with
    | nil => simp [List.isPrefixOf]
    | cons b m =>
      simp only [List.isPrefixOf, Bool.and_eq_true, beq_iff_eq, ih,
        List.length_cons, Nat.add_le_add_iff_right, List.take_succ_cons,
        List.cons.injEq]
      tauto

/-- The function `hasMagicIdentifier` rephrased through the Boolean prefix test. -/
theorem hasMagicIdentifier_eq_checks (data identifier : ByteBuf)
    (e1 e2 : WalletError) :
    hasMagicIdentifier data identifier e1 e2 =
      if data.length < identifier.length then .error e1
      else if identifier.isPrefixOf data then .ok (data.drop identifier.length)
      else .error e2 := by
  unfold hasMagicIdentifier
  by_cases h1 : data.length < identifier.length
  · simp [h1]
  · simp only [if_neg h1]
    by_cases h2 : identifier.isPrefixOf data
    · have ht := (isPrefixOf_eq_true_iff identifier data).1 h2
      simp [h2, ht.2]
    · have ht : data.take identifier.length ≠ identifier := by
        intro he
        exact h2 ((isPrefixOf_eq_true_iff identifier data).2
          ⟨Nat.le_of_not_lt h1, he⟩)
      simp [h2, ht]

/-- The decode contract written from the spec's own step list (C2), to be
compared with the source-derived `decodeWalletFile`: leading magic absent
or mismatched reports `NOT_A_WALLET_FILE`; fewer than 16 remaining bytes
for the salt reports `WALLET_FILE_CORRUPTED`; any decryption or padding
failure reports `WRONG_PASSWORD`; a plaintext shorter than the password
magic reports `WALLET_FILE_CORRUPTED` and a long-enough plaintext with a
mismatched password magic reports `WRONG_PASSWORD`; a JSON parse failure
reports `WALLET_FILE_CORRUPTED`; a version field differing from the
supported version reports `UNSUPPORTED_WALLET_FILE_FORMAT_VERSION`. -/
def decodeSpec (C : WalletConstants) (cm : CryptoModel)
    (jc : JsonCodec SW WS) (rawBytes password : ByteBuf) :
    Except WalletError (WalletContainer SW WS) :=
  if !(C.IS_A_WALLET_IDENTIFIER.isPrefixOf rawBytes) then
    .error .NOT_A_WALLET_FILE
  else
    let afterMagic := rawBytes.drop C.IS_A_WALLET_IDENTIFIER.length
    if afterMagic.length < 16 then
      .error .WALLET_FILE_CORRUPTED
    else
      let salt := afterMagic.take 16
      let key := cm.deriveKey password salt
      match cm.decrypt key salt (afterMagic.drop 16) with
      | none => .error .WRONG_PASSWORD
      | some plaintext =>
        if plaintext.length < C.IS_CORRECT_PASSWORD_IDENTIFIER.length then
          .error .WALLET_FILE_CORRUPTED
        else if !(C.IS_CORRECT_PASSWORD_IDENTIFIER.isPrefixOf plaintext) then
          .error .WRONG_PASSWORD
        else
          match jc.parse (plaintext.drop C.IS_CORRECT_PASSWORD_IDENTIFIER.length) with
          | none => .error .WALLET_FILE_CORRUPTED
          | some doc =>
            if doc.walletFileFormatVersion ≠ C.WALLET_FILE_FORMAT_VERSION then
              .error .UNSUPPORTED_WALLET_FILE_FORMAT_VERSION
            else
              .ok { subWallets := doc.subWallets
                    walletSynchronizer := doc.walletSynchronizer }

/-- C2: for every input byte string and password, the source's decode path
(`openWallet`) returns exactly the error kind of the first failing step as
enumerated by the spec: the source-derived `decodeWalletFile` agrees with
the spec-derived `decodeSpec` on all inputs. -/
theorem decodeWalletFile_matches_spec (C : WalletConstants) (cm : CryptoModel)
    (jc : JsonCodec SW WS) (data password : ByteBuf) :
    decodeWalletFile C cm jc data password = decodeSpec C cm jc data password := by
  unfold decodeWalletFile decodeSpec
  simp only [hasMagicIdentifier_eq_checks]
  by_cases hp : C.IS_A_WALLET_IDENTIFIER.isPrefixOf data
  · have hle : ¬ data.length < C.IS_A_WALLET_IDENTIFIER.length := by
      have := (isPrefixOf_eq_true_iff _ _).1 hp
      omega
    simp only [hle, if_false, hp, if_true, Bool.not_true, Bool.false_eq_true,
      ite_false, ite_true]
    split
    · rfl
    · split
      · rfl
      · rename_i plaintext hplain
        by_cases hl : plaintext.length < C.IS_CORRECT_PASSWORD_IDENTIFIER.length
        · simp [hl]
        · by_cases hp2 : C.IS_CORRECT_PASSWORD_IDENTIFIER.isPrefixOf plaintext
          · simp only [hl, if_false, ite_false, hp2, if_true, ite_true,
              Bool.not_true, Bool.false_eq_true]
            cases jc.parse (plaintext.drop C.IS_CORRECT_PASSWORD_IDENTIFIER.length) <;>
              simp [fromJSON]
          · have hf : (C.IS_CORRECT_PASSWORD_IDENTIFIER.isPrefixOf plaintext) = false :=
              Bool.eq_false_iff.mpr hp2
            simp [hl, hf]
  · have hfalse : (C.IS_A_WALLET_IDENTIFIER.isPrefixOf data) = false :=
      Bool.eq_false_iff.mpr hp
    simp only [hfalse, Bool.not_false, if_true, Bool.false_eq_true, if_false,
      ite_self, ite_true]

/-- Model of `WalletTypes::PreparedTransactionInfo`: a built-but-not-broadcast
transaction — its hash plus an abstract stand-in for the assembled
payload and consumed inputs. -/
structure PreparedTransactionInfo where
  transactionHash : Nat
  payload : Nat
  deriving DecidableEq, Repr

/-- The prepared-transaction cache `m_preparedTransactions`
(a `std::unordered_map` keyed by transaction hash), as an association
list. -/
abbrev PreparedTxCache := List (Nat × PreparedTransactionInfo)

/-- Map lookup (`unordered_map::find`). -/
def cacheLookup (cache : PreparedTxCache) (transactionHash : Nat) :
    Option PreparedTransactionInfo :=
  match cache with
  | [] => none
  | (k, v) :: rest =>
    if k = transactionHash then some v else cacheLookup rest transactionHash

/-- Map erasure by key (`unordered_map::erase`). -/
def cacheErase (cache : PreparedTxCache) (transactionHash : Nat) :
    PreparedTxCache :=
  match cache with
  | [] => []
  | (k, v) :: rest =>
    if k = transactionHash then cacheErase rest transactionHash
    else (k, v) :: cacheErase rest transactionHash

/-- Keyed insertion/overwrite (`unordered_map::operator[]` assignment). -/
def cacheInsert (cache : PreparedTxCache) (transactionHash : Nat)
    (tx : PreparedTransactionInfo) : PreparedTxCache :=
  (transactionHash, tx) :: cacheErase cache transactionHash

/-- Model of `WalletBackend::removePreparedTransaction`: erase the entry and report
whether one existed. -/
def removePreparedTransaction (cache : PreparedTxCache)
    (transactionHash : Nat) : Bool × PreparedTxCache :=
  ((cacheLookup cache transactionHash).isSome, cacheErase cache transactionHash)

/-- Model of `WalletBackend::sendPreparedTransaction`: look the hash up in the
cache, failing with `PREPARED_TRANSACTION_NOT_FOUND` when absent; submit
through the external `SendTransaction::sendPreparedTransaction`
(parameter `submit`); when the submission succeeded or reported
`PREPARED_TRANSACTION_EXPIRED`, remove the cached transaction, keyed by
the prepared transaction's own hash field. -/
def sendPreparedTransaction
    (submit : PreparedTransactionInfo → WalletError × Nat)
    (cache : PreparedTxCache) (transactionHash : Nat) :
    (WalletError × Nat) × PreparedTxCache :=
  match cacheLookup cache transactionHash with
  | none => ((.PREPARED_TRANSACTION_NOT_FOUND, 0), cache)
  | some preparedTransaction =>
    let (error, hash) := submit preparedTransaction
    if error = .PREPARED_TRANSACTION_EXPIRED ∨ error = .SUCCESS then
      ((error, hash),
        (removePreparedTransaction cache preparedTransaction.transactionHash).2)
    else
      ((error, hash), cache)

/-- Model of `WalletBackend::sendTransactionBasic`: the build/submit outcome of the
external `SendTransaction::sendTransactionBasic` is a parameter; a
deferred (`sendTransaction = false`) error-free build is inserted into
the cache keyed by the returned hash, otherwise the cache is untouched. -/
def sendTransactionBasic (cache : PreparedTxCache) (sendTransaction : Bool)
    (buildResult : WalletError × Nat × PreparedTransactionInfo) :
    (WalletError × Nat × PreparedTransactionInfo) × PreparedTxCache :=
  let (error, hash, preparedTransaction) := buildResult
  if sendTransaction = false ∧ error = .SUCCESS then
    (buildResult, cacheInsert cache hash preparedTransaction)
  else
    (buildResult, cache)

/-- Model of `WalletBackend::sendTransactionAdvanced`: identical cache behaviour to
the basic variant, around `SendTransaction::sendTransactionAdvanced`. -/
def sendTransactionAdvanced (cache : PreparedTxCache) (sendTransaction : Bool)
    (buildResult : WalletError × Nat × PreparedTransactionInfo) :
    (WalletError × Nat × PreparedTransactionInfo) × PreparedTxCache :=
  let (error, hash, preparedTransaction) := buildResult
  if sendTransaction = false ∧ error = .SUCCESS then
    (buildResult, cacheInsert cache hash preparedTransaction)
  else
    (buildResult, cache)

/-- Looking a key up after erasing it yields nothing. -/
theorem cacheLookup_cacheErase (cache : PreparedTxCache) (h : Nat) :
    cacheLookup (cacheErase cache h) h = none := by
  induction cache with
  | nil => rfl
  | cons p rest ih =>
    rcases p with ⟨k, v⟩
    by_cases hk : k = h
    · simp [cacheErase, hk, ih]
    · simp [cacheErase, cacheLookup, hk, ih]

/-- A successful lookup exhibits a cache entry. -/
theorem cacheLookup_mem (cache : PreparedTxCache) (h : Nat)
    (tx : PreparedTransactionInfo) (hl : cacheLookup cache h = some tx) :
    (h, tx) ∈ cache := by
  induction cache with
  | nil => simp [cacheLookup] at hl
  | cons p rest ih =>
    rcases p with ⟨k, v⟩
    by_cases hk : k = h
    · simp only [cacheLookup, if_pos hk, Option.some.injEq] at hl
      subst hk hl
      exact List.mem_cons_self _ _
    · simp only [cacheLookup, if_neg hk] at hl
      exact List.mem_cons_of_mem _ (ih hl)

/-- C3: `sendPreparedTransaction(h)` fails with
`PREPARED_TRANSACTION_NOT_FOUND` when `h` is not cached; and when a call
on `h` succeeds or discovers expiry, the entry for `h` is removed, so a
second call with the same `h` (whatever its submission outcome would be)
fails with `PREPARED_TRANSACTION_NOT_FOUND`.  The hypothesis `hkeyed` is
the cache-keying invariant documented by the spec: every cached entry is
keyed by its own transaction hash. -/
theorem sendPreparedTransaction_at_most_once
    (submit submit2 : PreparedTransactionInfo → WalletError × Nat)
    (cache : PreparedTxCache) (transactionHash : Nat)
    (hkeyed : ∀ p ∈ cache, p.2.transactionHash = p.1) :
    (cacheLookup cache transactionHash = none →
      sendPreparedTransaction submit cache transactionHash
        = ((.PREPARED_TRANSACTION_NOT_FOUND, 0), cache)) ∧
    ((sendPreparedTransaction submit cache transactionHash).1.1 = .SUCCESS ∨
     (sendPreparedTransaction submit cache transactionHash).1.1
        = .PREPARED_TRANSACTION_EXPIRED →
      cacheLookup (sendPreparedTransaction submit cache transactionHash).2
          transactionHash = none ∧
      (sendPreparedTransaction submit2
          (sendPreparedTransaction submit cache transactionHash).2
          transactionHash).1.1 = .PREPARED_TRANSACTION_NOT_FOUND) := by
  constructor
  · intro hnone
    simp [sendPreparedTransaction, hnone]
  · intro hres
    cases hc : cacheLookup cache transactionHash with
    | none =>
      simp [sendPreparedTransaction, hc] at hres
    | some tx =>
      have htx : tx.transactionHash = transactionHash :=
        hkeyed (transactionHash, tx) (cacheLookup_mem cache transactionHash tx hc)
      rcases hs : submit tx with ⟨er, n⟩
      by_cases hcond : er = .PREPARED_TRANSACTION_EXPIRED ∨ er = .SUCCESS
      · have hstate : (sendPreparedTransaction submit cache transactionHash).2
            = cacheErase cache transactionHash := by
          simp [sendPreparedTransaction, hc, hs, hcond,
            removePreparedTransaction, htx]
        rw [hstate]
        refine ⟨cacheLookup_cacheErase cache transactionHash, ?_⟩
        simp [sendPreparedTransaction, cacheLookup_cacheErase]
      · exfalso
        have : (sendPreparedTransaction submit cache transactionHash).1.1 = er := by
          simp [sendPreparedTransaction, hc, hs, hcond]
        rw [this] at hres
        exact hcond (Or.symm hres)

/-- Witness for C3: on a singleton cache keyed by hash 5 and a submission
that succeeds, the second call reports `PREPARED_TRANSACTION_NOT_FOUND`. -/
theorem sendPreparedTransaction_at_most_once_witness :
    (sendPreparedTransaction (fun _ => (.SUCCESS, 5))
      (sendPreparedTransaction (fun _ => (.SUCCESS, 5)) [(5, ⟨5, 0⟩)] 5).2 5).1.1
      = .PREPARED_TRANSACTION_NOT_FOUND :=
  ((sendPreparedTransaction_at_most_once (fun _ => (.SUCCESS, 5))
      (fun _ => (.SUCCESS, 5)) [(5, ⟨5, 0⟩)] 5 (by decide)).2
    (Or.inl (by decide))).2

/-- C4: for both prepare operations, an entry is inserted into the
prepared-transaction cache exactly when deferred submission was requested
(`sendTransaction = false`) and the build reported no error; on any build
error, and whenever immediate submission was requested, the cache is left
unchanged. -/
theorem sendTransaction_cache_frame
    (cache : PreparedTxCache) (sendTransaction : Bool)
    (error : WalletError) (hash : Nat) (tx : PreparedTransactionInfo) :
    ((sendTransaction = false ∧ error = .SUCCESS →
        (sendTransactionBasic cache sendTransaction (error, hash, tx)).2
            = cacheInsert cache hash tx ∧
        cacheLookup
            (sendTransactionBasic cache sendTransaction (error, hash, tx)).2 hash
            = some tx) ∧
      (sendTransaction = true ∨ error ≠ .SUCCESS →
        (sendTransactionBasic cache sendTransaction (error, hash, tx)).2 = cache)) ∧
    ((sendTransaction = false ∧ error = .SUCCESS →
        (sendTransactionAdvanced cache sendTransaction (error, hash, tx)).2
            = cacheInsert cache hash tx ∧
        cacheLookup
            (sendTransactionAdvanced cache sendTransaction (error, hash, tx)).2 hash
            = some tx) ∧
      (sendTransaction = true ∨ error ≠ .SUCCESS →
        (sendTransactionAdvanced cache sendTransaction (error, hash, tx)).2 = cache)) := by
  have hlook : cacheLookup (cacheInsert cache hash tx) hash = some tx := by
    simp [cacheInsert, cacheLookup]
  refine ⟨⟨?_, ?_⟩, ?_, ?_⟩
  · rintro ⟨hs, he⟩
    subst hs he
    exact ⟨by simp [sendTransactionBasic], by simp [sendTransactionBasic, hlook]⟩
  · intro h
    have hcond : ¬ (sendTransaction = false ∧ error = .SUCCESS) := by
      rcases h with h | h <;> simp [h]
    simp [sendTransactionBasic, hcond]
  · rintro ⟨hs, he⟩
    subst hs he
    exact ⟨by simp [sendTransactionAdvanced], by simp [sendTransactionAdvanced, hlook]⟩
  · intro h
    have hcond : ¬ (sendTransaction = false ∧ error = .SUCCESS) := by
      rcases h with h | h <;> simp [h]
    simp [sendTransactionAdvanced, hcond]

/-- Witness for C4: a deferred, error-free build on the empty cache
inserts the prepared transaction under its hash. -/
theorem sendTransaction_cache_frame_witness :
    (sendTransactionBasic [] false (.SUCCESS, 9, ⟨9, 1⟩)).2
        = cacheInsert [] 9 ⟨9, 1⟩ ∧
    cacheLookup (sendTransactionBasic [] false (.SUCCESS, 9, ⟨9, 1⟩)).2 9
        = some ⟨9, 1⟩ :=
  (sendTransaction_cache_frame [] false .SUCCESS 9 ⟨9, 1⟩).1.1 ⟨rfl, rfl⟩

/-- Modelled from the spec: the WalletSynchronizer (whose implementation
is not under `src/`) as observed by the lifecycle operations —
`getCurrentScanHeight` reads the checkpoint, and `reset(h)` / `rewind(h)`
"empty the sync status and reset the start height", setting the
checkpoint to exactly `h`. -/
structure SynchronizerState where
  scanHeight : Nat
  syncStatus : List Nat
  deriving DecidableEq, Repr

/-- Modelled from the spec: `WalletSynchronizer::reset(h)`. -/
def syncReset (scanHeight : Nat) (_s : SynchronizerState) : SynchronizerState :=
  { scanHeight := scanHeight, syncStatus := [] }

/-- Modelled from the spec: `WalletSynchronizer::rewind(h)`. -/
def syncRewind (scanHeight : Nat) (_s : SynchronizerState) : SynchronizerState :=
  { scanHeight := scanHeight, syncStatus := [] }

/-- The shared wallet state the lifecycle operations mutate under the
guard: the synchronizer checkpoint plus the sub-wallet registry (abstract
type `SW`, mutated only through parameter functions). -/
structure LifecycleState (SW : Type) where
  walletSynchronizer : SynchronizerState
  subWallets : SW

/-- Model of `WalletBackend::importSubWallet(privateSpendKey, scanHeight)`:
validate the key, run the registry import (external
`SubWallets::importSubWallet`, parameter `importOp`) under the guard,
and when it succeeded with the synchronizer's current scan height at or
past the requested height, reset the synchronizer to the requested
height and rewind the registry to it. -/
def importSubWalletByKey (validateKeyError : WalletError)
    (importOp : SW → (WalletError × String) × SW)
    (swRewind : Nat → SW → SW)
    (scanHeight : Nat) (st : LifecycleState SW) :
    (WalletError × String) × LifecycleState SW :=
  if validateKeyError ≠ .SUCCESS then
    ((validateKeyError, ""), st)
  else
    let ((error, address), sw1) := importOp st.subWallets
    if error = .SUCCESS then
      if st.walletSynchronizer.scanHeight ≥ scanHeight then
        ((error, address),
          { walletSynchronizer := syncReset scanHeight st.walletSynchronizer
            subWallets := swRewind scanHeight sw1 })
      else
        ((error, address), { st with subWallets := sw1 })
    else
      ((error, address), { st with subWallets := sw1 })

/-- Model of `WalletBackend::importSubWallet(walletIndex, scanHeight)`: as the key
variant but with no up-front validation and a registry `reset` instead of
`rewind`. -/
def importSubWalletByIndex
    (importOp : SW → (WalletError × String) × SW)
    (swReset : Nat → SW → SW)
    (scanHeight : Nat) (st : LifecycleState SW) :
    (WalletError × String) × LifecycleState SW :=
  let ((error, address), sw1) := importOp st.subWallets
  if error = .SUCCESS then
    if st.walletSynchronizer.scanHeight ≥ scanHeight then
      ((error, address),
        { walletSynchronizer := syncReset scanHeight st.walletSynchronizer
          subWallets := swReset scanHeight sw1 })
    else
      ((error, address), { st with subWallets := sw1 })
  else
    ((error, address), { st with subWallets := sw1 })

/-- Model of `WalletBackend::importViewSubWallet(publicSpendKey, scanHeight)`:
validates the public key, then proceeds as the index variant. -/
def importViewSubWallet (validateKeyError : WalletError)
    (importOp : SW → (WalletError × String) × SW)
    (swReset : Nat → SW → SW)
    (scanHeight : Nat) (st : LifecycleState SW) :
    (WalletError × String) × LifecycleState SW :=
  if validateKeyError ≠ .SUCCESS then
    ((validateKeyError, ""), st)
  else
    let ((error, address), sw1) := importOp st.subWallets
    if error = .SUCCESS then
      if st.walletSynchronizer.scanHeight ≥ scanHeight then
        ((error, address),
          { walletSynchronizer := syncReset scanHeight st.walletSynchronizer
            subWallets := swReset scanHeight sw1 })
      else
        ((error, address), { st with subWallets := sw1 })
    else
      ((error, address), { st with subWallets := sw1 })

/-- C5: for each sub-wallet import operation that succeeds with requested
scan height `H`: when the synchronizer's current scan height is at or
past `H`, the synchronizer checkpoint is rewound to exactly `H` (status
emptied) and the registry's derived transaction/input state is rolled
back to `H` (through the respective registry rollback operation applied
at exactly `H`); when the current height is below `H`, the synchronizer
checkpoint is left unchanged. -/
theorem importSubWallet_rescans
    (validateKeyError validateViewError : WalletError)
    (importKeyOp importIndexOp importViewOp : SW → (WalletError × String) × SW)
    (swReset swRewind : Nat → SW → SW)
    (scanHeight : Nat) (st : LifecycleState SW) :
    ((importSubWalletByKey validateKeyError importKeyOp swRewind scanHeight st).1.1
        = .SUCCESS →
      (st.walletSynchronizer.scanHeight ≥ scanHeight →
        (importSubWalletByKey validateKeyError importKeyOp swRewind scanHeight
            st).2.walletSynchronizer.scanHeight = scanHeight ∧
        (importSubWalletByKey validateKeyError importKeyOp swRewind scanHeight
            st).2.subWallets
          = swRewind scanHeight (importKeyOp st.subWallets).2) ∧
      (st.walletSynchronizer.scanHeight < scanHeight →
        (importSubWalletByKey validateKeyError importKeyOp swRewind scanHeight
            st).2.walletSynchronizer = st.walletSynchronizer)) ∧
    ((importSubWalletByIndex importIndexOp swReset scanHeight st).1.1
        = .SUCCESS →
      (st.walletSynchronizer.scanHeight ≥ scanHeight →
        (importSubWalletByIndex importIndexOp swReset scanHeight
            st).2.walletSynchronizer.scanHeight = scanHeight ∧
        (importSubWalletByIndex importIndexOp swReset scanHeight st).2.subWallets
          = swReset scanHeight (importIndexOp st.subWallets).2) ∧
      (st.walletSynchronizer.scanHeight < scanHeight →
        (importSubWalletByIndex importIndexOp swReset scanHeight
            st).2.walletSynchronizer = st.walletSynchronizer)) ∧
    ((importViewSubWallet validateViewError importViewOp swReset scanHeight st).1.1
        = .SUCCESS →
      (st.walletSynchronizer.scanHeight ≥ scanHeight →
        (importViewSubWallet validateViewError importViewOp swReset scanHeight
            st).2.walletSynchronizer.scanHeight = scanHeight ∧
        (importViewSubWallet validateViewError importViewOp swReset scanHeight
            st).2.subWallets
          = swReset scanHeight (importViewOp st.subWallets).2) ∧
      (st.walletSynchronizer.scanHeight < scanHeight →
        (importViewSubWallet validateViewError importViewOp swReset scanHeight
            st).2.walletSynchronizer = st.walletSynchronizer)) := by
  refine ⟨?_, ?_, ?_⟩
  · intro hsucc
    by_cases hv : validateKeyError ≠ .SUCCESS
    · exfalso
      simp [importSubWalletByKey, hv] at hsucc
    · rcases hio : importKeyOp st.subWallets with ⟨⟨er, addr⟩, sw1⟩
      by_cases he : er = .SUCCESS
      · subst he
        constructor
        · intro hge
          simp [importSubWalletByKey, hv, hio, hge, syncReset]
        · intro hlt
          simp [importSubWalletByKey, hv, hio, Nat.not_le.mpr hlt]
      · exfalso
        simp [importSubWalletByKey, hv, hio, he] at hsucc
  · intro hsucc
    rcases hio : importIndexOp st.subWallets with ⟨⟨er, addr⟩, sw1⟩
    by_cases he : er = .SUCCESS
    · subst he
      constructor
      · intro hge
        simp [importSubWalletByIndex, hio, hge, syncReset]
      · intro hlt
        simp [importSubWalletByIndex, hio, Nat.not_le.mpr hlt]
    · exfalso
      simp [importSubWalletByIndex, hio, he] at hsucc
  · intro hsucc
    by_cases hv : validateViewError ≠ .SUCCESS
    · exfalso
      simp [importViewSubWallet, hv] at hsucc
    · rcases hio : importViewOp st.subWallets with ⟨⟨er, addr⟩, sw1⟩
      by_cases he : er = .SUCCESS
      · subst he
        constructor
        · intro hge
          simp [importViewSubWallet, hv, hio, hge, syncReset]
        · intro hlt
          simp [importViewSubWallet, hv, hio, Nat.not_le.mpr hlt]
      · exfalso
        simp [importViewSubWallet, hv, hio, he] at hsucc

/-- Witness for C5: a successful key import at requested height 10 with
the synchronizer at height 20 rewinds the checkpoint to exactly 10 and
rolls the registry back to 10. -/
theorem importSubWallet_rescans_witness :
    (importSubWalletByKey .SUCCESS (fun sw => ((WalletError.SUCCESS, "a"), sw + 1))
        (fun h sw => h * 1000 + sw) 10
        ⟨⟨20, [1, 2]⟩, 3⟩).2.walletSynchronizer.scanHeight = 10 ∧
    (importSubWalletByKey .SUCCESS (fun sw => ((WalletError.SUCCESS, "a"), sw + 1))
        (fun h sw => h * 1000 + sw) 10 ⟨⟨20, [1, 2]⟩, 3⟩).2.subWallets
      = (fun h sw => h * 1000 + sw) 10
          ((fun sw => ((WalletError.SUCCESS, "a"), sw + 1)) (3 : Nat)).2 :=
  ((importSubWallet_rescans .SUCCESS .SUCCESS (fun sw => ((WalletError.SUCCESS, "a"), sw + 1))
      (fun sw => ((WalletError.SUCCESS, "b"), sw + 2)) (fun sw => ((WalletError.SUCCESS, "c"), sw + 3))
      (fun h sw => h * 100 + sw) (fun h sw => h * 1000 + sw) 10
      ⟨⟨20, [1, 2]⟩, 3⟩).1 (by decide)).1 (by decide)

/-- Model of `WalletBackend::reset(scanHeight, timestamp)` under the guard: a
supplied (non-zero) timestamp is first converted to a scan height by the
external `Utilities::timestampToScanHeight` (parameter `t2h`) and
zeroed; then the synchronizer is reset and the registry reset at the
resulting height (the subsequent unsafe save does not touch this state). -/
def reset (t2h : Nat → Nat) (swReset : Nat → SW → SW)
    (scanHeight timestamp : Nat) (st : LifecycleState SW) :
    LifecycleState SW :=
  let cutHeight := if timestamp ≠ 0 then t2h timestamp else scanHeight
  { walletSynchronizer := syncReset cutHeight st.walletSynchronizer
    subWallets := swReset cutHeight st.subWallets }

/-- Model of `WalletBackend::rewind(scanHeight, timestamp)`: as `reset` but calling
the synchronizer's and registry's `rewind`. -/
def rewind (t2h : Nat → Nat) (swRewind : Nat → SW → SW)
    (scanHeight timestamp : Nat) (st : LifecycleState SW) :
    LifecycleState SW :=
  let cutHeight := if timestamp ≠ 0 then t2h timestamp else scanHeight
  { walletSynchronizer := syncRewind cutHeight st.walletSynchronizer
    subWallets := swRewind cutHeight st.subWallets }

/-- C8: whenever `reset` or `rewind` is called with a supplied (non-zero)
timestamp, the timestamp is converted to a scan height and that height —
never the timestamp or the ignored scan-height argument — is the cut
point passed to both the wallet synchronizer and the sub-wallet
registry. -/
theorem reset_rewind_timestamp_conversion
    (t2h : Nat → Nat) (swReset swRewind : Nat → SW → SW)
    (scanHeight timestamp : Nat) (st : LifecycleState SW)
    (hts : timestamp ≠ 0) :
    reset t2h swReset scanHeight timestamp st
      = { walletSynchronizer := syncReset (t2h timestamp) st.walletSynchronizer
          subWallets := swReset (t2h timestamp) st.subWallets } ∧
    rewind t2h swRewind scanHeight timestamp st
      = { walletSynchronizer := syncRewind (t2h timestamp) st.walletSynchronizer
          subWallets := swRewind (t2h timestamp) st.subWallets } := by
  constructor <;> simp [reset, rewind, hts]

/-- Witness for C8: with timestamp 5 supplied and a conversion adding 7,
both operations cut at height 12, ignoring the scan-height argument 3. -/
theorem reset_rewind_timestamp_conversion_witness :
    reset (fun t => t + 7) (fun h sw => h + sw) 3 5 ⟨⟨9, [4]⟩, (2 : Nat)⟩
      = { walletSynchronizer := syncReset ((fun t => t + 7) 5) ⟨9, [4]⟩
          subWallets := (fun h sw => h + sw) ((fun t => t + 7) 5) 2 } ∧
    rewind (fun t => t + 7) (fun h sw => h + sw) 3 5 ⟨⟨9, [4]⟩, (2 : Nat)⟩
      = { walletSynchronizer := syncRewind ((fun t => t + 7) 5) ⟨9, [4]⟩
          subWallets := (fun h sw => h + sw) ((fun t => t + 7) 5) 2 } :=
  reset_rewind_timestamp_conversion (fun t => t + 7) (fun h sw => h + sw)
    (fun h sw => h + sw) 3 5 ⟨⟨9, [4]⟩, 2⟩ (by decide)

/-- Model of `WalletTypes::Transaction` as far as the range filter observes it:
its block height, plus its hash so that distinct transactions at the
same height stay distinct. -/
structure Transaction where
  hash : Nat
  blockHeight : Nat
  deriving DecidableEq, Repr

/-- Model of `WalletBackend::getTransactionsRange(startHeight, endHeight)`:
`std::copy_if` over the stored transactions, keeping those with
`blockHeight >= startHeight && blockHeight < endHeight`. -/
def getTransactionsRange (startHeight endHeight : Nat)
    (transactions : List Transaction) : List Transaction :=
  transactions.filter
    (fun tx => decide (startHeight ≤ tx.blockHeight) &&
               decide (tx.blockHeight < endHeight))

/-- C6: `getTransactionsRange(a, b)` returns exactly the stored
transactions with `a ≤ blockHeight < b`: membership in the result is
equivalent to stored membership within the half-open interval, and the
result keeps every such transaction with its stored multiplicity; on the
concrete heights {5, 10, 10, 15}, the range [10, 15) returns the two
height-10 entries and excludes the height-15 one. -/
theorem getTransactionsRange_half_open (startHeight endHeight : Nat)
    (transactions : List Transaction) :
    (∀ tx, tx ∈ getTransactionsRange startHeight endHeight transactions ↔
      tx ∈ transactions ∧ startHeight ≤ tx.blockHeight ∧
        tx.blockHeight < endHeight) ∧
    (∀ tx, (getTransactionsRange startHeight endHeight transactions).count tx
      = if startHeight ≤ tx.blockHeight ∧ tx.blockHeight < endHeight
        then transactions.count tx else 0) ∧
    getTransactionsRange 10 15 [⟨1, 5⟩, ⟨2, 10⟩, ⟨3, 10⟩, ⟨4, 15⟩]
      = [⟨2, 10⟩, ⟨3, 10⟩] := by
  refine ⟨?_, ?_, by decide⟩
  · intro tx
    simp [getTransactionsRange, List.mem_filter, and_assoc]
  · intro tx
    by_cases hin : startHeight ≤ tx.blockHeight ∧ tx.blockHeight < endHeight
    · rw [if_pos hin]
      exact List.count_filter (by simp [hin.1, hin.2])
    · rw [if_neg hin]
      refine List.count_eq_zero_of_not_mem ?_
      intro hmem
      rcases (List.mem_filter.mp hmem) with ⟨_, hp⟩
      simp only [Bool.and_eq_true, decide_eq_true_eq] at hp
      exact hin hp

/-- Model of `WalletBackend::getMnemonicSeedForAddress`: validate the address
(outcome of the external `validateAddresses` is a parameter), fetch the
spend keys for it (outcome of `getSpendKeys` is a parameter: error,
public spend key, private spend key, wallet index), re-derive the
private view key from the private spend key via the external
`Crypto::crypto_ops::generateViewFromSpend` (parameter `deriveView`) and
compare it with the container's stored private view key; only on a match
is the mnemonic (external `Mnemonics::PrivateKeyToMnemonic`, parameter
`mnemonic`) returned. -/
def getMnemonicSeedForAddress
    (validateAddressError : WalletError)
    (spendKeysResult : WalletError × Nat × Nat × Nat)
    (privateViewKey : Nat)
    (deriveView : Nat → Nat)
    (mnemonic : Nat → String) : WalletError × String :=
  if validateAddressError ≠ .SUCCESS then
    (validateAddressError, "")
  else
    let (error, _publicSpendKey, privateSpendKey, _walletIndex) := spendKeysResult
    if error ≠ .SUCCESS then
      (error, "")
    else
      let derivedPrivateViewKey := deriveView privateSpendKey
      if derivedPrivateViewKey ≠ privateViewKey then
        (.KEYS_NOT_DETERMINISTIC, "")
      else
        (.SUCCESS, mnemonic privateSpendKey)

/-- C7: for a valid address belonging to the container (address
validation and spend-key lookup both succeed), the mnemonic query
returns `KEYS_NOT_DETERMINISTIC` with an empty seed exactly when the
view key re-derived from the address's private spend key differs from
the container's stored private view key, and returns the seed only when
the two view keys are equal. -/
theorem getMnemonicSeed_deterministic_check
    (validateAddressError : WalletError)
    (spendKeysResult : WalletError × Nat × Nat × Nat)
    (privateViewKey : Nat) (deriveView : Nat → Nat) (mnemonic : Nat → String)
    (hvalid : validateAddressError = .SUCCESS)
    (howned : spendKeysResult.1 = .SUCCESS) :
    (deriveView spendKeysResult.2.2.1 ≠ privateViewKey →
      getMnemonicSeedForAddress validateAddressError spendKeysResult
          privateViewKey deriveView mnemonic
        = (.KEYS_NOT_DETERMINISTIC, "")) ∧
    (deriveView spendKeysResult.2.2.1 = privateViewKey →
      getMnemonicSeedForAddress validateAddressError spendKeysResult
          privateViewKey deriveView mnemonic
        = (.SUCCESS, mnemonic spendKeysResult.2.2.1)) := by
  subst hvalid
  rcases spendKeysResult with ⟨er, pub, priv, idx⟩
  simp only at howned
  subst howned
  constructor
  · intro hne
    simp [getMnemonicSeedForAddress, hne]
  · intro heq
    simp [getMnemonicSeedForAddress, heq]

/-- Witness for C7: a stored view key 0 that does not match the
re-derived view key 3 makes the query fail with
`KEYS_NOT_DETERMINISTIC` and an empty seed. -/
theorem getMnemonicSeed_deterministic_check_witness :
    getMnemonicSeedForAddress .SUCCESS (.SUCCESS, 1, 2, 3) 0 (fun k => k + 1)
        (fun _ => "seed")
      = (.KEYS_NOT_DETERMINISTIC, "") :=
  (getMnemonicSeed_deterministic_check .SUCCESS (.SUCCESS, 1, 2, 3) 0
      (fun k => k + 1) (fun _ => "seed") rfl rfl).1 (by decide)

/-- The filesystem as `checkNewWalletFilename` and the save path observe
it: whether `std::ifstream(filename)` succeeds (the file exists and is
readable) and whether `std::ofstream(filename)` succeeds (the path can be
opened for writing).  Filenames are abstract identifiers. -/
structure FileSystem where
  fileExists : Nat → Bool
  canWrite : Nat → Bool

/-- Model of `checkNewWalletFilename` (anonymous namespace): an existing file
reports `WALLET_FILE_ALREADY_EXISTS`; an unwritable path reports
`INVALID_WALLET_FILENAME`; otherwise the probe file is removed again and
the check succeeds. -/
def checkNewWalletFilename (fsys : FileSystem) (filename : Nat) :
    WalletError :=
  if fsys.fileExists filename then
    .WALLET_FILE_ALREADY_EXISTS
  else if !(fsys.canWrite filename) then
    .INVALID_WALLET_FILENAME
  else
    .SUCCESS

/-- A key pair from the external `Crypto::generate_keys`; keys are
abstract naturals. -/
structure KeyPair where
  publicKey : Nat
  secretKey : Nat
  deriving DecidableEq, Repr

/-- The wallet `createWallet` builds, as far as C9 observes it: the
standard constructor's arguments with `newWallet = true` and scan height
zero; modelled from the spec for the external SubWallets constructor,
the registry holds the single sub-wallet of the generated spend key. -/
structure NewWalletModel where
  filename : Nat
  password : ByteBuf
  privateViewKey : Nat
  subWalletSpendKeys : List Nat
  scanHeight : Nat
  newWallet : Bool
  deriving DecidableEq, Repr

/-- Model of `WalletBackend::createWallet`: check the filename; generate a spend
key pair (external `Crypto::generate_keys`, parameter); derive the view
key deterministically from the spend secret key (external
`generateViewFromSpend`, parameter `deriveView`); construct the wallet
with a single sub-wallet at scan height zero and `newWallet = true`; and
persist it (`save`), writing the encoded bytes (`encodeFile` abstracts
`saveWalletJSONToDisk`) to the disk, an association list from filenames
to contents. -/
def createWallet (fsys : FileSystem) (disk : List (Nat × ByteBuf))
    (spendKey : KeyPair) (deriveView : Nat → Nat)
    (encodeFile : NewWalletModel → ByteBuf)
    (filename : Nat) (password : ByteBuf) :
    (WalletError × Option NewWalletModel) × List (Nat × ByteBuf) :=
  let checkError := checkNewWalletFilename fsys filename
  if checkError ≠ .SUCCESS then
    ((checkError, none), disk)
  else
    let privateViewKey := deriveView spendKey.secretKey
    let wallet : NewWalletModel :=
      { filename := filename
        password := password
        privateViewKey := privateViewKey
        subWalletSpendKeys := [spendKey.secretKey]
        scanHeight := 0
        newWallet := true }
    if fsys.canWrite filename then
      ((.SUCCESS, some wallet), (filename, encodeFile wallet) :: disk)
    else
      ((.INVALID_WALLET_FILENAME, some wallet), disk)

/-- C9: `createWallet` fails with `WALLET_FILE_ALREADY_EXISTS` whenever
the target path exists, with `INVALID_WALLET_FILENAME` whenever it
cannot be opened for writing, and otherwise succeeds with a wallet whose
view key is derived deterministically from the fresh spend key, holding
a single sub-wallet at scan height zero with `newWallet = true`,
persisted to disk under the target filename. -/
theorem createWallet_contract (fsys : FileSystem)
    (disk : List (Nat × ByteBuf)) (spendKey : KeyPair)
    (deriveView : Nat → Nat) (encodeFile : NewWalletModel → ByteBuf)
    (filename : Nat) (password : ByteBuf) :
    (fsys.fileExists filename = true →
      createWallet fsys disk spendKey deriveView encodeFile filename password
        = ((.WALLET_FILE_ALREADY_EXISTS, none), disk)) ∧
    (fsys.fileExists filename = false → fsys.canWrite filename = false →
      createWallet fsys disk spendKey deriveView encodeFile filename password
        = ((.INVALID_WALLET_FILENAME, none), disk)) ∧
    (fsys.fileExists filename = false → fsys.canWrite filename = true →
      createWallet fsys disk spendKey deriveView encodeFile filename password
        = ((.SUCCESS, some
              { filename := filename
                password := password
                privateViewKey := deriveView spendKey.secretKey
                subWalletSpendKeys := [spendKey.secretKey]
                scanHeight := 0
                newWallet := true }),
           (filename, encodeFile
              { filename := filename
                password := password
                privateViewKey := deriveView spendKey.secretKey
                subWalletSpendKeys := [spendKey.secretKey]
                scanHeight := 0
                newWallet := true }) :: disk)) := by
  refine ⟨?_, ?_, ?_⟩
  · intro hex
    simp [createWallet, checkNewWalletFilename, hex]
  · intro hex hwr
    simp [createWallet, checkNewWalletFilename, hex, hwr]
  · intro hex hwr
    simp [createWallet, checkNewWalletFilename, hex, hwr]

/-- Witness for C9: on an empty disk where the target neither exists nor
is unwritable, the wallet is created with the derived view key and
persisted. -/
theorem createWallet_contract_witness :
    createWallet ⟨fun _ => false, fun _ => true⟩ [] ⟨4, 6⟩ (fun k => k * 2)
        (fun w => [w.privateViewKey]) 1 [7]
      = ((.SUCCESS, some
            { filename := 1
              password := [7]
              privateViewKey := 12
              subWalletSpendKeys := [6]
              scanHeight := 0
              newWallet := true }),
         [(1, [12])]) :=
  (createWallet_contract ⟨fun _ => false, fun _ => true⟩ [] ⟨4, 6⟩
      (fun k => k * 2) (fun w => [w.privateViewKey]) 1 [7]).2.2 rfl rfl

/-- The backend state as `changePassword` observes it: the stored
password, the container, and the on-disk wallet file contents.  The save
path is modelled without its I/O-fault branch (an unwritable file is a
filesystem error, orthogonal to the password logic). -/
structure BackendState (SW WS : Type) where
  password : ByteBuf
  container : WalletContainer SW WS
  diskFile : ByteBuf

/-- Model of `WalletBackend::save` via `unsafeSave`/`saveWalletJSONToDisk`: write
the container, encoded under the stored password with a fresh salt, to
the wallet file. -/
def saveBackend (C : WalletConstants) (cm : CryptoModel)
    (jc : JsonCodec SW WS) (salt : ByteBuf) (st : BackendState SW WS) :
    BackendState SW WS :=
  { st with diskFile := encodeContainer C cm jc st.container st.password salt }

/-- Model of `WalletBackend::changePassword(newPassword)`: return `SUCCESS` at
once, skipping the (PBKDF2-slow) save, when the new password equals the
stored one; otherwise store the new password and save, re-encrypting
under it. -/
def changePassword (C : WalletConstants) (cm : CryptoModel)
    (jc : JsonCodec SW WS) (salt : ByteBuf) (st : BackendState SW WS)
    (newPassword : ByteBuf) : WalletError × BackendState SW WS :=
  if st.password = newPassword then
    (.SUCCESS, st)
  else
    (.SUCCESS, saveBackend C cm jc salt { st with password := newPassword })

/-- C10: `changePassword` with the current password returns `SUCCESS`
and changes nothing — no save happens, the on-disk file and the rest of
the state are untouched; with a different password, the stored password
becomes the new one, the container is untouched, and the wallet file is
rewritten encrypted under the new password. -/
theorem changePassword_frame (C : WalletConstants) (cm : CryptoModel)
    (jc : JsonCodec SW WS) (salt : ByteBuf) (st : BackendState SW WS)
    (newPassword : ByteBuf) :
    (st.password = newPassword →
      changePassword C cm jc salt st newPassword = (.SUCCESS, st)) ∧
    (st.password ≠ newPassword →
      changePassword C cm jc salt st newPassword
        = (.SUCCESS,
            { password := newPassword
              container := st.container
              diskFile := encodeContainer C cm jc st.container newPassword salt })) := by
  constructor <;> intro h <;> simp [changePassword, saveBackend, h]

/-- Witness for C10: changing the password to the current one returns
`SUCCESS` with the state, disk file included, unchanged. -/
theorem changePassword_frame_witness :
    changePassword sampleConstants trivialCrypto listJsonCodec
        (List.replicate 16 0) ⟨[1], ⟨2, 3⟩, [9]⟩ [1]
      = (.SUCCESS, ⟨[1], ⟨2, 3⟩, [9]⟩) :=
  (changePassword_frame sampleConstants trivialCrypto listJsonCodec
      (List.replicate 16 0) ⟨[1], ⟨2, 3⟩, [9]⟩ [1]).1 rfl

end RTcoin
